import Mathlib

/-!
Verification of the `rustico` Result library (src/src/rustico/rustico.py)
against its natural-language specification.

The Python code is shallowly embedded: Python values live in an inductive
universe `PyObj`, the `Ok`/`Err` tagged union is the inductive `RRes`,
side-effecting callbacks are modelled as state-passing functions threading a
call counter, and the generator-driven do-notation interpreter is modelled as
a tree of yield points (`Gen`).
-/

/-- A single traceback frame, as held by a CPython traceback object and
summarised by `traceback.extract_tb`: source file name, line number,
function name, and the (stripped) source text of that line. -/
structure Frame where
  filename : String
  lineno : Nat
  funcName : String
  line : String
deriving DecidableEq, Repr

/-- A Python exception object as far as this library inspects it:
its class name, the method resolution order of its class (used by
`except (kinds...)` matching, which is an `isinstance` check), the message,
and the optionally attached traceback.  A CPython traceback object always
holds at least one frame, hence `Frame × List Frame`. -/
structure PyException where
  clsName : String
  mro : List String
  msg : String
  tb : Option (Frame × List Frame)
deriving DecidableEq, Repr

/-- The universe of Python values the library manipulates: `None`, ints,
strings, exception objects, and `Ok`/`Err` instances themselves (a Result is
an ordinary Python object, so it can appear wherever a value can). -/
inductive PyObj where
  | vNone
  | vInt (n : Int)
  | vStr (s : String)
  | vExc (e : PyException)
  | vOk (v : PyObj)
  | vErr (v : PyObj)
deriving DecidableEq, Repr

/-- `isinstance(value, BaseException)` on this universe. -/
def isBaseExc : PyObj → Bool
  | .vExc _ => true
  | _ => false

/-- The `Result` union: `Ok(value)` or `Err(value)` (rustico.py line 855,
`Result = Union[Ok[T], Err[E]]`). -/
inductive RRes where
  | ok (v : PyObj)
  | err (e : PyObj)
deriving DecidableEq, Repr

/-- `Ok.map` / `Err.map`: `Ok.map` returns `Ok(op(self._value))` (line 301);
`Err.map` returns `self` untouched (line 719). -/
def RRes.map (f : PyObj → PyObj) : RRes → RRes
  | .ok v => .ok (f v)
  | .err e => .err e

/-- `Ok.and_then` / `Err.and_then`: `Ok.and_then` returns `op(self._value)`
(line 367); `Err.and_then` returns `self` untouched (line 784). -/
def RRes.andThen (f : PyObj → RRes) : RRes → RRes
  | .ok v => f v
  | .err e => .err e

/-- `map` instrumented with a call counter: the callback is a state-passing
function, and each invocation is observable in the threaded state.  The
branch structure is exactly that of `Ok.map`/`Err.map`: the `Err` branch
returns `self` without touching the callback. -/
def RRes.mapCount (f : PyObj → Nat → PyObj × Nat) : RRes → Nat → RRes × Nat
  | .ok v, n => let p := f v n; (.ok p.1, p.2)
  | .err e, n => (.err e, n)

/-- `and_then` instrumented with a call counter, mirroring
`Ok.and_then`/`Err.and_then`. -/
def RRes.andThenCount (f : PyObj → Nat → RRes × Nat) : RRes → Nat → RRes × Nat
  | .ok v, n => f v n
  | .err e, n => (.err e, n)

/-- C1: `Ok(v).map(f) == Ok(f(v))` and `Ok(v).and_then(f) == f(v)`;
`Err(e).map(f) == Err(e)` and `Err(e).and_then(f) == Err(e)`, and in both
`Err` cases the callback is never invoked (the instrumented versions leave
the call counter untouched for every callback and every starting count). -/
theorem map_andThen_algebra :
    ∀ (v e : PyObj) (f : PyObj → PyObj) (g : PyObj → RRes)
      (fc : PyObj → Nat → PyObj × Nat) (gc : PyObj → Nat → RRes × Nat) (n : Nat),
    RRes.map f (.ok v) = .ok (f v)
    ∧ RRes.andThen g (.ok v) = g v
    ∧ RRes.map f (.err e) = .err e
    ∧ RRes.andThen g (.err e) = .err e
    ∧ RRes.mapCount fc (.err e) n = (.err e, n)
    ∧ RRes.andThenCount gc (.err e) n = (.err e, n) := by
  intro v e f g fc gc n
  refine ⟨rfl, rfl, rfl, rfl, rfl, rfl⟩

/-- Does `n` occur at the head of `h` (character-list prefix test)? -/
def listLeads : List Char → List Char → Bool
  | [], _ => true
  | _ :: _, [] => false
  | a :: ns, b :: hs => a == b && listLeads ns hs

/-- Does `n` occur contiguously anywhere inside `h`?  Used to formalise a
message "embedding" / "mentioning" a piece of text. -/
def listHas (n : List Char) : List Char → Bool
  | [] => n.isEmpty
  | c :: hs => listLeads n (c :: hs) || listHas n hs

/-- `strHas needle hay` holds when `needle` occurs as a contiguous substring
of `hay`. -/
def strHas (needle hay : String) : Bool := listHas needle.data hay.data

/-- The single-quote character, used by Python `repr` of strings. -/
def pyQuote : String := String.singleton (Char.ofNat 39)

/-- Python `repr` on this value universe: `repr(None) = "None"`, ints print
as themselves, strings are single-quoted, exceptions print as
`ClsName(<quoted message>)`, and `Ok.__repr__`/`Err.__repr__` (rustico.py
lines 88-89 and 486-487) print `Ok(repr(value))` / `Err(repr(value))`. -/
def pyRepr : PyObj → String
  | .vNone => "None"
  | .vInt n => toString n
  | .vStr s => pyQuote ++ s ++ pyQuote
  | .vExc e => e.clsName ++ "(" ++ pyQuote ++ e.msg ++ pyQuote ++ ")"
  | .vOk v => "Ok(" ++ pyRepr v ++ ")"
  | .vErr v => "Err(" ++ pyRepr v ++ ")"

lemma str_data_append (a b : String) : (a ++ b).data = a.data ++ b.data := by
  cases a; cases b; rfl

lemma listLeads_self (l : List Char) : listLeads l l = true := by
  induction l with
  | nil => rfl
  | cons c cs ih => simp [listLeads, ih]

lemma listHas_self (l : List Char) : listHas l l = true := by
  cases l with
  | nil => rfl
  | cons c cs => simp [listHas, listLeads_self]

lemma listHas_append_self (p q : List Char) : listHas q (p ++ q) = true := by
  induction p with
  | nil => simpa using listHas_self q
  | cons c cs ih => simp [listHas, ih]

/-- A message of the form `prefixText ++ needle` embeds `needle`. -/
lemma strHas_append (p n : String) : strHas n (p ++ n) = true := by
  unfold strHas
  rw [str_data_append]
  exact listHas_append_self p.data n.data

/-- The `UnwrapError` exception (rustico.py lines 32-67; the spec's
language-neutral name for it is `UnwrapFailure`): it carries the original
Result that failed to unwrap (exposed by the `.result` property), the
human-readable message passed to `__init__`, and — because `Err.unwrap` /
`Err.expect` execute `raise exc from self._value` when the payload is a
`BaseException` — an optional cause link. -/
structure UnwrapErrorM where
  result : RRes
  message : String
  cause : Option PyObj
deriving DecidableEq, Repr

/-- The message built by `Err.unwrap` (line 648). -/
def unwrapMsg (e : PyObj) : String :=
  "Called `Result.unwrap()` on an `Err` value: " ++ pyRepr e

/-- `Ok.unwrap` (line 232) returns the value; `Err.unwrap` (lines 648-651)
raises `UnwrapError(self, message)` with the cause chained to the payload
when it is exception-like.  Raising is modelled with `Except.error`. -/
def RRes.unwrap : RRes → Except UnwrapErrorM PyObj
  | .ok v => .ok v
  | .err e => .error ⟨.err e, unwrapMsg e, if isBaseExc e then some e else none⟩

/-- `Ok.expect` (line 203) returns the value ignoring the message;
`Err.expect` (lines 605-608) raises `UnwrapError(self, message + ": " +
repr(value))`, chained like `unwrap`. -/
def RRes.expect (message : String) : RRes → Except UnwrapErrorM PyObj
  | .ok v => .ok v
  | .err e => .error ⟨.err e, message ++ ": " ++ pyRepr e, if isBaseExc e then some e else none⟩

/-- C5: `unwrap()` on `Err(e)` fails with an `UnwrapError` whose `.result`
is the original `Err(e)`, whose message embeds `repr(e)`, and which chains
to `e` exactly when `e` is exception-like; `expect(m)` behaves the same with
message `m ++ ": " ++ repr(e)`. -/
theorem unwrap_expect_failure_semantics :
    ∀ (e : PyObj) (m : String),
    RRes.unwrap (.err e)
      = .error ⟨.err e, unwrapMsg e, if isBaseExc e then some e else none⟩
    ∧ strHas (pyRepr e) (unwrapMsg e) = true
    ∧ RRes.expect m (.err e)
      = .error ⟨.err e, m ++ ": " ++ pyRepr e, if isBaseExc e then some e else none⟩
    ∧ strHas (pyRepr e) (m ++ ": " ++ pyRepr e) = true := by
  intro e m
  exact ⟨rfl, strHas_append _ _, rfl, strHas_append (m ++ ": ") (pyRepr e)⟩

/-- Python `==` on the value universe: `Ok.__eq__` (lines 91-92) is
`isinstance(other, Ok) and self._value == other._value`; `Err.__eq__`
(lines 489-490) likewise with `Err`; ints and strings compare by value,
`None == None`; exceptions are compared structurally here (CPython compares
them by identity, which no claim relies on); everything else — including a
Result against a raw value, where `int.__eq__` returns `NotImplemented` and
the reflected `Ok.__eq__`/`Err.__eq__` fails its `isinstance` test — is
unequal. -/
def pyEq : PyObj → PyObj → Bool
  | .vOk a, .vOk b => pyEq a b
  | .vErr a, .vErr b => pyEq a b
  | .vNone, .vNone => true
  | .vInt m, .vInt n => m == n
  | .vStr s, .vStr t => s == t
  | .vExc a, .vExc b => a == b
  | _, _ => false

/-- The tuple handed to `hash` by `Ok.__hash__` = `hash((True, value))`
(line 98) and `Err.__hash__` = `hash((False, value))` (line 496): the
variant tag is part of the hashed key. -/
def hashKey : RRes → Bool × PyObj
  | .ok v => (true, v)
  | .err e => (false, e)

/-- C8: `Ok(x) == Ok(y)` iff `x == y`, `Err(x) == Err(y)` iff `x == y`,
cross-variant comparison and comparison against the raw value are always
false (`Ok(1) != 1`), and the hashed key includes the variant tag, so
`Ok(x)` and `Err(x)` feed distinct keys to `hash`. -/
theorem result_equality_hash :
    ∀ x y : PyObj,
    pyEq (.vOk x) (.vOk y) = pyEq x y
    ∧ pyEq (.vErr x) (.vErr y) = pyEq x y
    ∧ pyEq (.vOk x) (.vErr y) = false
    ∧ pyEq (.vErr x) (.vOk y) = false
    ∧ (∀ n : Int, pyEq (.vOk x) (.vInt n) = false ∧ pyEq (.vInt n) (.vOk x) = false)
    ∧ pyEq (.vOk (.vInt 1)) (.vInt 1) = false
    ∧ pyEq (.vInt 1) (.vOk (.vInt 1)) = false
    ∧ hashKey (.ok x) ≠ hashKey (.err x) := by
  intro x y
  refine ⟨rfl, rfl, rfl, rfl, fun n => ⟨rfl, rfl⟩, rfl, rfl, ?_⟩
  simp [hashKey]

/-- One entry of `traceback.format_list(traceback.extract_tb(tb))`, the
CPython `StackSummary.format` row for a frame: the file name, line number
and function name, followed by the stripped source text of the line when
available.  It contains no exception type and no exception message. -/
def formatFrame (f : Frame) : String :=
  "  File \"" ++ f.filename ++ "\", line " ++ toString f.lineno ++ ", in "
    ++ f.funcName ++ "\n"
    ++ (if f.line = "" then "" else "    " ++ f.line ++ "\n")

/-- `Err._capture_traceback` (rustico.py lines 458-462): if the payload is a
`BaseException` with an attached `__traceback__`, format its frames with
`traceback.format_list(traceback.extract_tb(...))`; otherwise `None`. -/
def captureTraceback (v : PyObj) : Option (List String) :=
  match v with
  | .vExc e =>
    match e.tb with
    | some tbv => some ((tbv.1 :: tbv.2).map formatFrame)
    | none => none
  | _ => none

/-- The `_trace` slot of an `Err` instance: either the `...` sentinel
(traceback not yet computed) or a cached computed value. -/
inductive TraceCache where
  | sentinel
  | cached (t : Option (List String))
deriving DecidableEq, Repr

/-- The mutable state of an `Err` instance: its payload and its `_trace`
slot (`__slots__ = ('_trace', '_value')`). -/
structure ErrObj where
  value : PyObj
  traceCache : TraceCache
deriving DecidableEq, Repr

/-- `Err.__init__` (rustico.py lines 453-456): store the payload and set
`_trace` to the `...` sentinel for `BaseException` payloads, `None`
otherwise. -/
def mkErr (v : PyObj) : ErrObj :=
  ⟨v, if isBaseExc v then .sentinel else .cached none⟩

/-- The `Err.trace` property (rustico.py lines 464-484): on first access
with an exception payload (sentinel still in place) compute the traceback
via `_capture_traceback` and cache it; otherwise return the cached slot.
Reading the property returns the new slot contents together with the
updated object state. -/
def traceGet (s : ErrObj) : TraceCache × ErrObj :=
  if isBaseExc s.value && s.traceCache == .sentinel then
    (.cached (captureTraceback s.value), ⟨s.value, .cached (captureTraceback s.value)⟩)
  else
    (s.traceCache, s)

/-- A realistic raised-and-caught exception whose raise site does not spell
the exception type or message in its source text: `ValueError` raised from
inside `int()` at the line `return int(x)`. -/
def cexFrame : Frame := ⟨"app.py", 3, "f", "return int(x)"⟩

/-- The exception object attached to `cexFrame`. -/
def cexExc : PyException :=
  ⟨"ValueError", ["ValueError", "Exception", "BaseException"], "invalid literal",
    some (cexFrame, [])⟩

/-- C4 counterexample: for this raised-and-caught exception the computed
trace is the single formatted frame, and that line mentions neither the
exception type (`ValueError`) nor its message — refuting "a non-empty
sequence of strings mentioning the exception type and message". -/
theorem err_trace_counterexample :
    (traceGet (mkErr (.vExc cexExc))).1 = .cached (some [formatFrame cexFrame])
    ∧ strHas cexExc.clsName (formatFrame cexFrame) = false
    ∧ strHas cexExc.msg (formatFrame cexFrame) = false := by
  refine ⟨rfl, ?_, ?_⟩ <;> decide

/-- C4 (amended): for every exception payload with an attached traceback,
the `Err` is constructed with the not-yet-computed sentinel (lazy), the
first access to `trace` returns the non-empty list of formatted traceback
frames and caches it (a second access returns the same value with the state
unchanged); for every non-exception payload `trace` is `None`. -/
theorem err_trace_lazy_capture :
    ∀ (e : PyException) (f : Frame) (fs : List Frame),
    e.tb = some (f, fs) →
    (mkErr (.vExc e)).traceCache = .sentinel
    ∧ (traceGet (mkErr (.vExc e))).1 = .cached (some ((f :: fs).map formatFrame))
    ∧ (f :: fs).map formatFrame ≠ []
    ∧ (∀ v : PyObj, isBaseExc v = false → (traceGet (mkErr v)).1 = .cached none)
    ∧ traceGet ((traceGet (mkErr (.vExc e))).2)
        = ((traceGet (mkErr (.vExc e))).1, (traceGet (mkErr (.vExc e))).2) := by
  intro e f fs h
  refine ⟨rfl, ?_, by simp, ?_, ?_⟩
  · simp [mkErr, traceGet, captureTraceback, isBaseExc, h]
  · intro v hv
    simp [mkErr, traceGet, hv]
  · simp [mkErr, traceGet, captureTraceback, isBaseExc, h]

/-- C4 witness: the amended claim evaluated on the concrete exception. -/
theorem err_trace_lazy_capture_witness :
    (mkErr (.vExc cexExc)).traceCache = .sentinel
    ∧ (traceGet (mkErr (.vExc cexExc))).1 = .cached (some ((cexFrame :: []).map formatFrame)) :=
  ⟨(err_trace_lazy_capture cexExc cexFrame [] rfl).1,
   (err_trace_lazy_capture cexExc cexFrame [] rfl).2.1⟩

/-- C9: an exception payload that was constructed but never raised carries
no traceback, so `Err(exc).trace` is `None` even though the payload is
exception-like. -/
theorem err_trace_unraised_exception :
    ∀ e : PyException, e.tb = none →
    (traceGet (mkErr (.vExc e))).1 = .cached none := by
  intro e h
  simp [mkErr, traceGet, captureTraceback, isBaseExc, h]

/-- C9 witness: a concrete never-raised `ValueError`. -/
theorem err_trace_unraised_witness :
    (traceGet (mkErr (.vExc
      ⟨"ValueError", ["ValueError", "Exception", "BaseException"], "never raised", none⟩))).1
      = .cached none :=
  err_trace_unraised_exception _ rfl

/-- The attribute names defined in `class Ok` (rustico.py lines 70-435):
its class dictionary, which Python attribute lookup searches.  `__slots__ =
('_value',)` means no further attributes can be attached to instances. -/
def okClassAttrs : List String :=
  ["__match_args__", "__slots__", "__init__", "__repr__", "__eq__", "__ne__",
   "__hash__", "is_ok", "is_err", "ok", "err", "ok_value", "value_or", "alt",
   "expect", "expect_err", "unwrap", "unwrap_err", "unwrap_or",
   "unwrap_or_else", "unwrap_or_raise", "map", "map_async", "map_or",
   "map_or_else", "map_err", "and_then", "and_then_async", "or_else",
   "inspect", "inspect_err", "match"]

/-- The attribute names defined in `class Err` (rustico.py lines 438-852). -/
def errClassAttrs : List String :=
  ["__match_args__", "__slots__", "__init__", "_capture_traceback", "trace",
   "__repr__", "__eq__", "__ne__", "__hash__", "is_ok", "is_err", "ok", "err",
   "err_value", "value_or", "alt", "expect", "expect_err", "unwrap",
   "unwrap_err", "unwrap_or", "unwrap_or_else", "unwrap_or_raise", "map",
   "map_async", "map_or", "map_or_else", "map_err", "and_then",
   "and_then_async", "or_else", "inspect", "inspect_err", "match"]

/-- Modelled from the spec: the `swap()` operation ("`swap()` | returns
Err(v) | returns Ok(e)"), which the spec's operation table and the
repository's own tests (`test_ok_swap`, `test_err_swap`) require but which
is defined in neither `class Ok` nor `class Err` in rustico.py. -/
def swapSpec : RRes → RRes
  | .ok v => .err v
  | .err e => .ok e

/-- C3: no `swap` attribute exists in either class dictionary (so
`Ok(v).swap()` raises `AttributeError` — the repository's own tests fail),
while the spec-modelled `swap` does satisfy the claimed equations and the
involution. -/
theorem swap_missing_but_specified :
    okClassAttrs.contains "swap" = false
    ∧ errClassAttrs.contains "swap" = false
    ∧ ∀ v e : PyObj,
        swapSpec (.ok v) = .err v
        ∧ swapSpec (.err e) = .ok e
        ∧ swapSpec (swapSpec (.ok v)) = .ok v
        ∧ swapSpec (swapSpec (.err e)) = .err e := by
  refine ⟨by decide, by decide, fun v e => ⟨rfl, rfl, rfl, rfl⟩⟩

/-- `except (kinds...)` as executed by the wrapper built in `as_result`:
`isinstance(exc, kinds)` holds iff some declared kind occurs in the
exception class's method resolution order. -/
def excMatches (kinds : List String) (exc : PyException) : Bool :=
  kinds.any (fun k => exc.mro.contains k)

/-- The wrapper produced by `as_result(*exceptions)` (rustico.py lines
880-888): run the wrapped computation; a normal return `r` becomes `Ok(r)`;
a raised exception matching a declared kind becomes `Err(exc)`; any other
raised exception propagates unmodified.  The wrapped computation's outcome
is an `Except PyException PyObj`, and so is the wrapper's (it can still
raise). -/
def asResultWrap (kinds : List String) (comp : Except PyException PyObj) :
    Except PyException RRes :=
  match comp with
  | .ok v => .ok (.ok v)
  | .error exc => if excMatches kinds exc then .ok (.err (.vExc exc)) else .error exc

/-- C7: `as_result(kinds...)` returns `Ok(value)` on success, `Err(exc)`
holding the exact raised exception when it matches a declared kind, and
propagates the exception unmodified when it matches none. -/
theorem as_result_semantics :
    ∀ (kinds : List String) (v : PyObj) (exc : PyException),
    asResultWrap kinds (.ok v) = .ok (.ok v)
    ∧ (excMatches kinds exc = true → asResultWrap kinds (.error exc) = .ok (.err (.vExc exc)))
    ∧ (excMatches kinds exc = false → asResultWrap kinds (.error exc) = .error exc) := by
  intro kinds v exc
  refine ⟨rfl, fun h => ?_, fun h => ?_⟩ <;> simp [asResultWrap, h]

/-- C7 witness: the spec's round-trip example — a raised `ValueError`
wrapped by `as_result(ValueError)` yields `Err` holding that exception, and
wrapped by `as_result(TypeError)` propagates it unmodified. -/
theorem as_result_witness :
    asResultWrap ["ValueError"] (.error cexExc) = .ok (.err (.vExc cexExc))
    ∧ asResultWrap ["TypeError"] (.error cexExc) = .error cexExc :=
  ⟨(as_result_semantics ["ValueError"] .vNone cexExc).2.1 (by decide),
   (as_result_semantics ["TypeError"] .vNone cexExc).2.2 (by decide)⟩

/-- A synchronous generator of Results, as consumed by `_run_do`: each
resumption either terminates — `done ret`, with `ret` the procedure's
return value, where `vNone` stands for both `return None` and a bare
`return` (CPython raises the terminating `StopIteration` with empty `args`
exactly when the return value is `None`) — or produces one Result together
with the continuation that receives the value sent back in. -/
inductive Gen where
  | done (ret : PyObj)
  | step (r : RRes) (k : PyObj → Gen)

/-- `_run_do` (rustico.py lines 1130-1146): resume with the previous Ok
value (initially `None`); on an `Err` return it immediately; on an `Ok`
remember it as `last_ok_result`, unwrap it and resume again.  On
`StopIteration`: `Ok(e.args[0])` when `args` is non-empty (i.e. the return
value was not `None`), else the remembered `last_ok_result`, else
`Ok(None)`. -/
def runDoAux : Gen → Option RRes → RRes
  | .done ret, lastOk =>
    if ret = PyObj.vNone then
      match lastOk with
      | some r => r
      | none => .ok PyObj.vNone
    else .ok ret
  | .step r k, _lastOk =>
    match r with
    | .err e => .err e
    | .ok v => runDoAux (k v) (some (.ok v))

/-- `_run_do` entry: `value = None`, `last_ok_result = None`. -/
def runDo (g : Gen) : RRes := runDoAux g none

/-- `_run_do_async` (rustico.py lines 1149-1165): the identical algorithm —
the only textual difference from `_run_do` is the order of the two
assignments after an `Ok`, which produce the same state.  The `await` of
`gen.asend` is modelled transparently (suspension returns the produced
Result). -/
def runDoAsyncAux : Gen → Option RRes → RRes
  | .done ret, lastOk =>
    if ret = PyObj.vNone then
      match lastOk with
      | some r => r
      | none => .ok PyObj.vNone
    else .ok ret
  | .step r k, _lastOk =>
    match r with
    | .err e => .err e
    | .ok v => runDoAsyncAux (k v) (some (.ok v))

/-- `_run_do_async` entry. -/
def runDoAsync (g : Gen) : RRes := runDoAsyncAux g none

/-- A generator instrumented for side effects: each resumption performs the
listed effects while running the segment up to its next yield (or up to
termination). -/
inductive GenE where
  | done (effs : List String) (ret : PyObj)
  | step (effs : List String) (r : RRes) (k : PyObj → GenE)

/-- `_run_do` on an instrumented generator, additionally logging the
effects of every segment that actually runs. -/
def runDoEffAux : GenE → Option RRes → List String → RRes × List String
  | .done effs ret, lastOk, log =>
    (if ret = PyObj.vNone then
      match lastOk with
      | some r => r
      | none => .ok PyObj.vNone
    else .ok ret, log ++ effs)
  | .step effs r k, _lastOk, log =>
    match r with
    | .err e => (.err e, log ++ effs)
    | .ok v => runDoEffAux (k v) (some (.ok v)) (log ++ effs)

/-- Entry point of the instrumented interpreter. -/
def runDoEff (g : GenE) : RRes × List String := runDoEffAux g none []

/-- The spec's short-circuit example: a sequence yielding `Ok(10)`, then
`Err("boom")`, then (never reached) `Ok(99)`, each step with an observable
side effect. -/
def shortCircuitGen : GenE :=
  .step ["first step"] (.ok (.vInt 10)) (fun _ =>
    .step ["second step"] (.err (.vStr "boom")) (fun _ =>
      .step ["third step"] (.ok (.vInt 99)) (fun _ =>
        .done [] PyObj.vNone)))

/-- C2: the first `Err` produced terminates the interpretation immediately
with that `Err` unchanged, for any continuation and any remembered state,
in both the synchronous and the asynchronous interpreter; on the spec's
example the result is `Err("boom")` and the third step's side effect never
occurs. -/
theorem do_short_circuit :
    (∀ (e : PyObj) (k : PyObj → Gen) (acc : Option RRes),
        runDoAux (.step (.err e) k) acc = .err e)
    ∧ (∀ (e : PyObj) (k : PyObj → Gen) (acc : Option RRes),
        runDoAsyncAux (.step (.err e) k) acc = .err e)
    ∧ runDoEff shortCircuitGen = (.err (.vStr "boom"), ["first step", "second step"])
    ∧ (runDoEff shortCircuitGen).2.contains "third step" = false := by
  refine ⟨fun e k acc => rfl, fun e k acc => rfl, rfl, by decide⟩

/-- A generator that yields a fixed list of Results (ignoring the values
sent back in) and then terminates with return value `ret`. -/
def seqGen : List RRes → PyObj → Gen
  | [], ret => .done ret
  | r :: rs, ret => .step r (fun _ => seqGen rs ret)

lemma runDoAux_seq_ret (vs : List PyObj) (ret : PyObj) (acc : Option RRes)
    (h : ret ≠ PyObj.vNone) :
    runDoAux (seqGen (vs.map RRes.ok) ret) acc = .ok ret := by
  induction vs generalizing acc with
  | nil => simp [seqGen, runDoAux, h]
  | cons w ws ih => simp [seqGen, runDoAux, ih]

lemma runDoAux_seq_lastOk (vs : List PyObj) (v : PyObj) (acc : Option RRes) :
    runDoAux (seqGen ((vs ++ [v]).map RRes.ok) PyObj.vNone) acc = .ok v := by
  induction vs generalizing acc with
  | nil => simp [seqGen, runDoAux]
  | cons w ws ih => exact ih (some (RRes.ok w))

lemma runDoAsyncAux_seq_lastOk (vs : List PyObj) (v : PyObj) (acc : Option RRes) :
    runDoAsyncAux (seqGen ((vs ++ [v]).map RRes.ok) PyObj.vNone) acc = .ok v := by
  induction vs generalizing acc with
  | nil => simp [seqGen, runDoAsyncAux]
  | cons w ws ih => exact ih (some (RRes.ok w))

/-- C6: a sequence of steps that never produces an `Err` yields `Ok` of the
explicitly returned value when there is one (i.e. it is not `None`),
otherwise the last yielded `Ok`, otherwise `Ok(None)`; in particular
yielding `Ok(10)`, `Ok(20)` and returning `30` gives `Ok(30)`. -/
theorem do_success_accumulation :
    (∀ (vs : List PyObj) (ret : PyObj), ret ≠ PyObj.vNone →
        runDo (seqGen (vs.map RRes.ok) ret) = .ok ret)
    ∧ runDo (seqGen [.ok (.vInt 10), .ok (.vInt 20)] (.vInt 30)) = .ok (.vInt 30)
    ∧ (∀ (vs : List PyObj) (v : PyObj),
        runDo (seqGen ((vs ++ [v]).map RRes.ok) PyObj.vNone) = .ok v)
    ∧ runDo (seqGen [] PyObj.vNone) = .ok PyObj.vNone := by
  refine ⟨fun vs ret h => runDoAux_seq_ret vs ret none h, rfl,
    fun vs v => runDoAux_seq_lastOk vs v none, rfl⟩

/-- C6 witness: the explicit-return clause evaluated on the spec's example. -/
theorem do_success_accumulation_witness :
    runDo (seqGen ([PyObj.vInt 10, PyObj.vInt 20].map RRes.ok) (.vInt 30)) = .ok (.vInt 30) :=
  do_success_accumulation.1 [PyObj.vInt 10, PyObj.vInt 20] (.vInt 30) (by decide)

/-- C10: a sequence that yields at least one `Ok` and then returns the
empty value (`return None` or a bare `return` — CPython raises the
terminating `StopIteration` with empty `args` in both cases, making them
indistinguishable to `_run_do`) produces the last yielded `Ok`, not
`Ok(None)`; likewise for the asynchronous interpreter. -/
theorem do_return_none_fallback :
    ∀ (vs : List PyObj) (v : PyObj),
    runDo (seqGen ((vs ++ [v]).map RRes.ok) PyObj.vNone) = .ok v
    ∧ runDoAsync (seqGen ((vs ++ [v]).map RRes.ok) PyObj.vNone) = .ok v :=
  fun vs v => ⟨runDoAux_seq_lastOk vs v none, runDoAsyncAux_seq_lastOk vs v none⟩
